import Mathlib

/-!
Verification of the waveform bar-extraction and rendering engine of
react-voice-visualizer, shallowly embedded from
src/src/components/VoiceVisualizer.tsx.  Helper modules that the component
imports (../helpers, ../hooks/useWebWorker, ../hooks/useDebounce,
../types/types) are not part of the provided sources; where a claim depends
on them, the corresponding definition is modelled from the specification
(its doc comment says so explicitly).  Sample amplitudes and fractional
pixel quantities are modelled as rationals; pixel counts as naturals;
JavaScript Math.trunc / Math.round are modelled explicitly.
-/

/-- Bar descriptor.  Modelled from the spec: the BarsData record of
../types/types.ts (not under src/), one visual column with the amplitude in
pixels above and below the axis. -/
structure BarsData where
  amplitudeAboveAxis : ℚ
  amplitudeBelowAxis : ℚ
  deriving DecidableEq, Repr

/-- Peak amplitude measure of one chunk: maximum absolute value over the
chunk, 0 for an empty chunk. -/
def chunkPeak (chunk : List ℚ) : ℚ :=
  chunk.foldr (fun x acc => max |x| acc) 0

/-- One bar of the extraction: the peak of the i-th chunk of `step`
consecutive samples, scaled so that amplitude 1.0 maps to `h / 2` pixels,
emitted symmetrically above and below the axis. -/
def barAt (samples : List ℚ) (step : ℕ) (h : ℕ) (i : ℕ) : BarsData :=
  ⟨chunkPeak ((samples.drop (i * step)).take step) * ((h : ℚ) / 2),
   chunkPeak ((samples.drop (i * step)).take step) * ((h : ℚ) / 2)⟩

/-- Modelled from the spec: the Bar Extractor `getBarsData` of ../helpers
(not under src/).  Given samples and target geometry it emits
`floor(w / unit)` bars, `unit = barWidth + gap * barWidth`, each bar the
peak of one chunk of `floor(|samples| / barsCount)` consecutive samples
scaled to half the target height; an empty sample buffer yields the empty
bar sequence (spec edge case), and a chunk size of 0 leaves each bar at
amplitude 0 (the peak over an empty chunk).  Natural-number division is
floor division, so a zero `unit` or zero width yields zero bars. -/
def getBarsData (samples : List ℚ) (w h barWidth gap : ℕ) : List BarsData :=
  if samples.isEmpty then []
  else
    (List.range (w / (barWidth + gap * barWidth))).map
      (barAt samples (samples.length / (w / (barWidth + gap * barWidth))) h)

/-- C1 counterexample: on the empty sample buffer with `w = 100`,
`barWidth = 2`, `gap = 1` (unit 4), the extractor returns 0 bars, not
`floor(100 / 4) = 25`: the output length is not independent of the length
of the sample buffer. -/
theorem getBarsData_empty_length_ne :
    (getBarsData [] 100 200 2 1).length ≠ 100 / (2 + 1 * 2) := by
  decide

/-- C1 (amended): for every nonempty sample buffer, the extractor output
length equals `floor(w / unit)` with `unit = barWidth + gap * barWidth`,
independent of the buffer's length. -/
theorem getBarsData_length (samples : List ℚ) (w h barWidth gap : ℕ)
    (hne : samples ≠ []) :
    (getBarsData samples w h barWidth gap).length =
      w / (barWidth + gap * barWidth) := by
  unfold getBarsData
  rw [if_neg (by simpa [List.isEmpty_iff] using hne)]
  simp

/-- C1 witness: a concrete nonempty buffer of 3 samples, `w = 100`,
`barWidth = 2`, `gap = 1` gives 25 bars. -/
theorem getBarsData_length_witness :
    (getBarsData [1/2, -1/4, 3/4] 100 200 2 1).length = 100 / (2 + 1 * 2) :=
  getBarsData_length [1/2, -1/4, 3/4] 100 200 2 1 (by decide)

/-- C5: degenerate extraction is a non-error no-op: the empty buffer yields
the empty bar sequence, zero target width yields the empty sequence, and
when more bars are requested than samples are available (chunk size 0)
every emitted bar has amplitude 0 above and below the axis.  The embedding
is a total function, so no case raises an error. -/
theorem getBarsData_degenerate (samples : List ℚ) (w h barWidth gap : ℕ)
    (hlt : samples.length < w / (barWidth + gap * barWidth)) :
    getBarsData [] w h barWidth gap = [] ∧
    getBarsData samples 0 h barWidth gap = [] ∧
    ∀ b ∈ getBarsData samples w h barWidth gap,
      b.amplitudeAboveAxis = 0 ∧ b.amplitudeBelowAxis = 0 := by
  refine ⟨by simp [getBarsData], by simp [getBarsData], ?_⟩
  intro b hb
  unfold getBarsData at hb
  by_cases hs : samples.isEmpty
  · simp [hs] at hb
  · rw [if_neg hs] at hb
    rw [List.mem_map] at hb
    obtain ⟨i, _, hbar⟩ := hb
    rw [Nat.div_eq_of_lt hlt] at hbar
    subst hbar
    simp [barAt, chunkPeak]

/-- C5 witness: a single-sample buffer with `w = 100`, `barWidth = 2`,
`gap = 1` requests 25 bars from 1 sample, so the chunk size is 0 and a
concrete emitted bar has both amplitudes 0; the other degenerate cases
evaluate to the empty sequence. -/
theorem getBarsData_degenerate_witness :
    getBarsData [] 100 200 2 1 = [] ∧
    getBarsData [1/2] 0 200 2 1 = [] ∧
    ∀ b ∈ getBarsData [1/2] 100 200 2 1,
      b.amplitudeAboveAxis = 0 ∧ b.amplitudeBelowAxis = 0 :=
  getBarsData_degenerate [1/2] 100 200 2 1 (by decide)

/-- One job of the Offload Coordinator: an identifier assigned at
submission and the job parameters. -/
structure WorkerJob (α : Type) where
  id : ℕ
  params : α
  deriving DecidableEq, Repr

/-- Coordinator state: the id to assign next, the currently in-flight job
whose result is still awaited (the most recent submission), and the results
delivered to the completion callback so far. -/
structure WorkerState (α : Type) where
  nextId : ℕ
  current : Option (WorkerJob α)
  delivered : List (WorkerJob α)
  deriving DecidableEq, Repr

/-- Events of the Offload Coordinator: a submission with parameters, or the
arrival of the background-channel result of the job with the given id. -/
inductive WorkerEvent (α : Type) where
  | submit (p : α)
  | complete (id : ℕ)
  deriving DecidableEq, Repr

/-- Modelled from the spec: the Offload Coordinator (`useWebWorker` of
../hooks/useWebWorker.tsx, not under src/), single-flight with
supersession: a submission replaces the in-flight job, and an arriving
result is delivered to the completion callback only when it belongs to the
most recently submitted job; otherwise it is discarded. -/
def workerStep {α : Type} (s : WorkerState α) : WorkerEvent α → WorkerState α
  | .submit p => { s with nextId := s.nextId + 1, current := some ⟨s.nextId, p⟩ }
  | .complete i =>
      match s.current with
      | some j =>
          if j.id = i then
            { s with current := none, delivered := s.delivered ++ [j] }
          else s
      | none => s

/-- Run the Offload Coordinator from its initial state over a sequence of
events. -/
def workerRun {α : Type} (events : List (WorkerEvent α)) : WorkerState α :=
  events.foldl workerStep ⟨0, none, []⟩

/-- C2: submitting job J1 (id 0, parameters p1) and then J2 (id 1,
parameters p2) before J1 completes delivers exactly one result to the
completion callback, the one with J2's parameters, whichever of the two
completions arrives first; J1's result is discarded. -/
theorem worker_supersession {α : Type} (p1 p2 : α) :
    (workerRun [.submit p1, .submit p2, .complete 0, .complete 1]).delivered
        = [⟨1, p2⟩] ∧
    (workerRun [.submit p1, .submit p2, .complete 1, .complete 0]).delivered
        = [⟨1, p2⟩] := by
  constructor <;> rfl

/-- Result of one live amplitude-feed update of the live-stream
useLayoutEffect: whether `drawByLiveStream` (the only call that commits a
pick and repaints the canvas in that effect) was invoked, and the value of
the speed counter afterwards. -/
structure LiveFrameEffects where
  drawInvoked : Bool
  indexSpeedAfter : ℕ
  deriving DecidableEq, Repr

/-- The live-stream useLayoutEffect of VoiceVisualizer.tsx (lines 227-249):
with no canvas it returns early; otherwise, when the speed counter has
reached the threshold or the feed is empty, it resets the counter (to 0
when the feed is nonempty, to the threshold when empty) and invokes
`drawByLiveStream`; in every non-early-return path the counter is then
incremented by one. -/
def liveFrame (canvasPresent : Bool) (indexSpeed speed audioLen : ℕ) :
    LiveFrameEffects :=
  if !canvasPresent then ⟨false, indexSpeed⟩
  else if speed ≤ indexSpeed ∨ audioLen = 0 then
    ⟨true, (if audioLen ≠ 0 then 0 else speed) + 1⟩
  else ⟨false, indexSpeed + 1⟩

/-- C3 counterexample: with the canvas present, speed threshold 3, counter
at 0 and a nonempty feed (5 entries), the effect neither commits nor
redraws — `drawByLiveStream` is not invoked at all — contradicting the
claim that a redraw still occurs on throttled frames. -/
theorem liveFrame_no_redraw_when_throttled :
    (liveFrame true 0 3 5).drawInvoked = false ∧ ¬(3 ≤ 0 ∨ 5 = 0) := by
  exact ⟨rfl, by decide⟩

/-- C3 (amended): with the canvas present, `drawByLiveStream` (committing a
new pick and redrawing the visible window) is invoked exactly when the
speed counter has reached the threshold or the feed is empty; otherwise
neither the commit nor any redraw happens on that frame — the throttle
skips the entire draw call — and the speed counter advances by one. -/
theorem liveFrame_throttle (indexSpeed speed audioLen : ℕ) :
    ((liveFrame true indexSpeed speed audioLen).drawInvoked = true ↔
      (speed ≤ indexSpeed ∨ audioLen = 0)) ∧
    (¬(speed ≤ indexSpeed ∨ audioLen = 0) →
      liveFrame true indexSpeed speed audioLen = ⟨false, indexSpeed + 1⟩) := by
  constructor
  · unfold liveFrame
    by_cases h : speed ≤ indexSpeed ∨ audioLen = 0 <;> simp [h]
  · intro h
    unfold liveFrame
    simp [h]

/-- C3 witness: at counter 1, threshold 3 and feed length 5 the throttle
branch applies: the draw is skipped and the counter becomes 2. -/
theorem liveFrame_throttle_witness :
    ¬(3 ≤ 1 ∨ 5 = 0) ∧ liveFrame true 1 3 5 = ⟨false, 2⟩ :=
  ⟨by decide, (liveFrame_throttle 1 3 5).2 (by decide)⟩

/-- JavaScript Math.trunc: removes the fractional part, truncating toward
zero. -/
def jsTrunc (q : ℚ) : ℤ :=
  if 0 ≤ q then ⌊q⌋ else ⌈q⌉

/-- The value of jsTrunc on an integer is that integer. -/
theorem jsTrunc_intCast (n : ℤ) : jsTrunc (n : ℚ) = n := by
  unfold jsTrunc
  split
  · exact Int.floor_intCast n
  · exact Int.ceil_intCast n

/-- The canvas backing height computed by `onResize` (VoiceVisualizer.tsx
lines 365-368): `Math.trunc(clientHeight * devicePixelRatio / 2) * 2`. -/
def onResizeHeight (clientHeight dpr : ℚ) : ℤ :=
  2 * jsTrunc (clientHeight * dpr / 2)

/-- The canvas backing width computed by `onResize` (VoiceVisualizer.tsx
lines 372-376): `Math.round(clientWidth * devicePixelRatio)`; JavaScript
Math.round rounds to the nearest integer, ties up, which is Mathlib's
`round`. -/
def onResizeWidth (clientWidth dpr : ℚ) : ℤ :=
  round (clientWidth * dpr)

/-- C4 counterexample: with `clientHeight * devicePixelRatio = 19/5 = 3.8`
(clientHeight 19/5 at devicePixelRatio 1), `onResize` produces backing
height 2, while 4 is an even integer strictly nearer to 3.8 — the height is
not rounded to the nearest even integer. -/
theorem onResizeHeight_not_nearest_even :
    onResizeHeight (19/5) 1 = 2 ∧ (4 : ℤ) % 2 = 0 ∧
    |(19/5 : ℚ) - (4 : ℤ)| < |(19/5 : ℚ) - ((onResizeHeight (19/5) 1 : ℤ) : ℚ)| := by
  refine ⟨?_, by decide, ?_⟩
  · unfold onResizeHeight jsTrunc
    norm_num
  · unfold onResizeHeight jsTrunc
    norm_num
    rw [abs_of_pos (by norm_num : (0 : ℚ) < 1/5),
        abs_of_pos (by norm_num : (0 : ℚ) < 9/5)]
    norm_num

/-- C4 (amended): for every nonnegative scaled height, `onResize` truncates
the backing height down to an even integer — it is even, at most
`clientHeight * devicePixelRatio`, and within 2 below it (the greatest even
integer not exceeding it) — and the backing width is the integer nearest to
`clientWidth * devicePixelRatio` (ties rounded up). -/
theorem onResize_geometry (clientHeight clientWidth dpr : ℚ)
    (hnn : 0 ≤ clientHeight * dpr) :
    (∃ k : ℤ, onResizeHeight clientHeight dpr = 2 * k) ∧
    ((onResizeHeight clientHeight dpr : ℚ) ≤ clientHeight * dpr) ∧
    (clientHeight * dpr - 2 < (onResizeHeight clientHeight dpr : ℚ)) ∧
    (∀ z : ℤ, |clientWidth * dpr - (onResizeWidth clientWidth dpr : ℚ)| ≤
      |clientWidth * dpr - (z : ℚ)|) := by
  have h2 : (0 : ℚ) ≤ clientHeight * dpr / 2 := by linarith
  have htr : jsTrunc (clientHeight * dpr / 2) = ⌊clientHeight * dpr / 2⌋ := by
    unfold jsTrunc
    exact if_pos h2
  refine ⟨⟨jsTrunc (clientHeight * dpr / 2), rfl⟩, ?_, ?_, ?_⟩
  · unfold onResizeHeight
    rw [htr]
    push_cast
    have := Int.floor_le (clientHeight * dpr / 2)
    linarith
  · unfold onResizeHeight
    rw [htr]
    push_cast
    have := Int.lt_floor_add_one (clientHeight * dpr / 2)
    linarith
  · intro z
    exact round_le (clientWidth * dpr) z

/-- C4 witness: at clientHeight 3, clientWidth 10 and devicePixelRatio 1
the scaled height 3 is nonnegative; the backing height 2 is even, at most
3 and greater than 1, and the backing width 10 is nearest to 10. -/
theorem onResize_geometry_witness :
    (0 : ℚ) ≤ 3 * 1 ∧
    ((∃ k : ℤ, onResizeHeight 3 1 = 2 * k) ∧
     ((onResizeHeight 3 1 : ℚ) ≤ 3 * 1) ∧
     (3 * 1 - 2 < (onResizeHeight 3 1 : ℚ)) ∧
     (∀ z : ℤ, |10 * 1 - (onResizeWidth 10 1 : ℚ)| ≤ |10 * 1 - (z : ℚ)|)) :=
  ⟨by norm_num, onResize_geometry 3 10 1 (by norm_num)⟩

/-- The viewport-width policy of VoiceVisualizer.tsx line 153:
`isMobile = screenWidth < 768`. -/
def isMobile (screenWidth : ℚ) : Bool :=
  screenWidth < 768

/-- The formatted gap of VoiceVisualizer.tsx line 155:
`Math.trunc(gap)`. -/
def formattedGap (gap : ℚ) : ℤ :=
  jsTrunc gap

/-- The effective bar width of VoiceVisualizer.tsx lines 156-158:
`Math.trunc(isMobile && formattedGap > 0 ? barWidth + 1 : barWidth)`. -/
def formattedBarWidth (screenWidth barWidth gap : ℚ) : ℤ :=
  jsTrunc (if isMobile screenWidth = true ∧ 0 < formattedGap gap
           then barWidth + 1 else barWidth)

/-- The bar pitch of VoiceVisualizer.tsx line 159:
`unit = formattedBarWidth + formattedGap * formattedBarWidth`.  This value
is the `unit`/`barWidth` passed to `drawByLiveStream`, to the extraction
job and to `drawByBlob` (lines 232-243, 296-302, 329-340), so the same
pitch is used by both renderers and the extractor. -/
def unitPitch (screenWidth barWidth gap : ℚ) : ℤ :=
  formattedBarWidth screenWidth barWidth gap +
    formattedGap gap * formattedBarWidth screenWidth barWidth gap

/-- C7: for integer configured `barWidth` and `gap`, the effective bar
width is `barWidth + 1` exactly when the viewport is narrower than 768
logical pixels and `gap > 0`, and `barWidth` otherwise; and the bar pitch
is `effectiveBarWidth + gap * effectiveBarWidth`. -/
theorem formattedBarWidth_policy (screenWidth : ℚ) (b g : ℤ) :
    (formattedBarWidth screenWidth (b : ℚ) (g : ℚ) =
      if screenWidth < 768 ∧ 0 < g then b + 1 else b) ∧
    (unitPitch screenWidth (b : ℚ) (g : ℚ) =
      formattedBarWidth screenWidth (b : ℚ) (g : ℚ) +
        g * formattedBarWidth screenWidth (b : ℚ) (g : ℚ)) := by
  have hg : formattedGap (g : ℚ) = g := jsTrunc_intCast g
  constructor
  · unfold formattedBarWidth isMobile
    rw [hg]
    by_cases h : screenWidth < 768 ∧ 0 < g
    · rw [if_pos (by simpa using h), if_pos h]
      rw [show ((b : ℚ) + 1) = ((b + 1 : ℤ) : ℚ) by push_cast; ring]
      exact jsTrunc_intCast (b + 1)
    · rw [if_neg (by simpa using h), if_neg h]
      exact jsTrunc_intCast b
  · unfold unitPitch
    rw [hg]

/-- Color chosen for one bar of the Blob Renderer. -/
inductive BarColor where
  | main
  | secondary
  deriving DecidableEq, Repr

/-- Modelled from the spec: the left edge pixel of the bar at index `i` in
the Blob Renderer (`drawByBlob` of ../helpers, not under src/) is
`i * unit`. -/
def blobBarLeftEdge (i u : ℕ) : ℕ :=
  i * u

/-- Modelled from the spec: the per-bar color rule of the Blob Renderer
(`drawByBlob` of ../helpers, not under src/): the bar at index `i` is
painted `mainBarColor` when `(i * unit) / totalWidth * duration` is at most
the playhead time, `secondaryBarColor` otherwise. -/
def blobBarColor (i u totalWidth : ℕ) (duration playhead : ℚ) : BarColor :=
  if ((blobBarLeftEdge i u : ℕ) : ℚ) / (totalWidth : ℚ) * duration ≤ playhead
  then BarColor.main else BarColor.secondary

/-- C6 counterexample: with duration 10, playhead 4 and 10 equal bars of
unit 4 spanning the full width 40, the bar at index 4 satisfies
`(4 * unit) / totalWidth * duration = 4 ≤ 4` and is painted
`mainBarColor`, not `secondaryBarColor` as the claim's enumeration
(bars 4-9 secondary) states. -/
theorem blobBarColor_boundary :
    blobBarColor 4 4 (10 * 4) 10 4 = BarColor.main ∧
    BarColor.main ≠ BarColor.secondary := by
  constructor
  · unfold blobBarColor blobBarLeftEdge
    norm_num
  · decide

/-- C6 (amended): for duration 10, playhead 4 and a sequence of 10
equal-width bars of positive unit spanning the full width `10 * unit`, the
bar at index `i` has left edge `i * unit` and is painted `mainBarColor`
exactly when `i ≤ 4` — bars 0-4 are played, bars 5-9 unplayed (the boundary
bar at the playhead colors as played). -/
theorem blobBarColor_scenario (u : ℕ) (hu : 0 < u) (i : ℕ) (_hi : i < 10) :
    blobBarLeftEdge i u = i * u ∧
    blobBarColor i u (10 * u) 10 4 =
      if i ≤ 4 then BarColor.main else BarColor.secondary := by
  refine ⟨rfl, ?_⟩
  unfold blobBarColor blobBarLeftEdge
  have huq : ((10 : ℚ) * (u : ℚ)) ≠ 0 := by
    have : (u : ℚ) ≠ 0 := by exact_mod_cast hu.ne'
    positivity
  have hx : ((i * u : ℕ) : ℚ) / ((10 * u : ℕ) : ℚ) * 10 = (i : ℚ) := by
    push_cast
    field_simp
    ring
  rw [hx]
  by_cases h : i ≤ 4
  · rw [if_pos (by exact_mod_cast h : (i : ℚ) ≤ 4), if_pos h]
  · rw [if_neg (fun hc => h (by exact_mod_cast hc)), if_neg h]

/-- C6 witness: with unit 4, the bar at index 5 (left edge 20) is painted
`secondaryBarColor` in the duration-10, playhead-4 scenario. -/
theorem blobBarColor_scenario_witness :
    0 < 4 ∧ 5 < 10 ∧
    (blobBarLeftEdge 5 4 = 5 * 4 ∧
     blobBarColor 5 4 (10 * 4) 10 4 =
       if 5 ≤ 4 then BarColor.main else BarColor.secondary) :=
  ⟨by decide, by decide, blobBarColor_scenario 4 (by decide) 5 (by decide)⟩

/-- Reaction of the container-resize (ResizeObserver) callback of
VoiceVisualizer.tsx lines 198-207 to one notification: whether the
resize-processing flag `_setIsProcessingOnResize(true)` is raised, whether
`setIsResizing(true)` is raised, whether geometry is recomputed
immediately (`onResize()`), and whether the debounced recompute
(`debouncedOnResize()`, which re-runs `onResize` and thereby re-triggers
extraction) is scheduled. -/
structure ResizeReaction where
  processingFlagRaised : Bool
  resizingFlagRaised : Bool
  immediateRecompute : Bool
  debouncedRecompute : Bool
  deriving DecidableEq, Repr

/-- The ResizeObserver callback of VoiceVisualizer.tsx lines 198-207: with
a recorded buffer available it raises both flags and schedules the
debounced recompute; without one it recomputes geometry immediately. -/
def resizeObserverCallback (isAvailableRecordedAudio : Bool) : ResizeReaction :=
  if isAvailableRecordedAudio then ⟨true, true, false, true⟩
  else ⟨false, false, true, false⟩

/-- Modelled from the spec: the trailing-edge debounce (`useDebounce` of
../hooks/useDebounce.tsx, not under src/): a scheduled call at time `t`
fires at `t + d` unless another call arrives within the window, in which
case only the later call's window counts.  Input times are ascending; the
output lists the times at which the debounced function actually runs. -/
def debounceFirings (d : ℕ) : List ℕ → List ℕ
  | [] => []
  | [t] => [t + d]
  | t :: t2 :: rest =>
      if t2 ≤ t + d then debounceFirings d (t2 :: rest)
      else (t + d) :: debounceFirings d (t2 :: rest)

/-- A burst of calls, each arriving within the debounce window of the
previous one, coalesces into exactly one firing. -/
theorem debounceFirings_burst (d : ℕ) : ∀ (t : ℕ) (rest : List ℕ),
    List.Chain' (fun a b => b ≤ a + d) (t :: rest) →
    (debounceFirings d (t :: rest)).length = 1
  | _, [], _ => rfl
  | t, t2 :: rest, h => by
      rw [List.chain'_cons] at h
      obtain ⟨h1, h2⟩ := h
      unfold debounceFirings
      rw [if_pos h1]
      exact debounceFirings_burst d t2 rest h2

/-- C8: on a container-resize notification, with a recorded buffer the
callback raises the resize-processing flag and schedules the recompute
(and with it the re-extraction) through the debounce, while without a
recorded buffer it recomputes geometry immediately with no debounce; and a
rapid burst of debounced calls (consecutive gaps within the window)
coalesces into exactly one firing, hence one extraction. -/
theorem resizeObserver_policy (d t : ℕ) (rest : List ℕ)
    (hburst : List.Chain' (fun a b => b ≤ a + d) (t :: rest)) :
    resizeObserverCallback true = ⟨true, true, false, true⟩ ∧
    resizeObserverCallback false = ⟨false, false, true, false⟩ ∧
    (debounceFirings d (t :: rest)).length = 1 :=
  ⟨rfl, rfl, debounceFirings_burst d t rest hburst⟩

/-- C8 witness: three resize notifications at times 0, 2, 4 with a
debounce window of 5 coalesce into one firing; the callback reactions
evaluate as stated. -/
theorem resizeObserver_policy_witness :
    List.Chain' (fun a b => b ≤ a + 5) [0, 2, 4] ∧
    (debounceFirings 5 [0, 2, 4]).length = 1 :=
  ⟨by norm_num [List.chain'_cons],
   (resizeObserver_policy 5 0 [2, 4] (by norm_num [List.chain'_cons])).2.2⟩

/-- The resize-notification primitive a strategy subscribes to. -/
inductive SubscriptionKind where
  | windowResize
  | containerObserver
  deriving DecidableEq, Repr

/-- One resize-observation strategy: what it subscribes to, whether it runs
an immediate geometry check at mount, and the fixed delays (ms) of forced
re-checks scheduled after mount. -/
structure ResizeSetup where
  subscription : SubscriptionKind
  checkAtMount : Bool
  delayedRechecks : List ℕ
  deriving DecidableEq, Repr

/-- The strategy selection of the resize useEffect of VoiceVisualizer.tsx
lines 181-224: Safari (where ResizeObserver misbehaves) gets the window
resize event plus forced re-checks at 100, 500 and 1000 ms after mount;
otherwise, with ResizeObserver available and a container mounted, the
container observer is used; otherwise the window resize event with no
delayed re-checks. -/
def setupResize (isSafari hasResizeObserver hasContainer : Bool) : ResizeSetup :=
  if isSafari then ⟨SubscriptionKind.windowResize, true, [100, 500, 1000]⟩
  else if hasResizeObserver && hasContainer then
    ⟨SubscriptionKind.containerObserver, false, []⟩
  else ⟨SubscriptionKind.windowResize, true, []⟩

/-- C9: in environments where the container-resize notification misbehaves
(Safari), the system subscribes to the window-resize notification and
forces re-checks at 100, 500 and 1000 ms after mount, whatever else is
available; in the absolute fallback (no ResizeObserver primitive) it
subscribes to window-resize with no delayed re-checks. -/
theorem setupResize_fallbacks (ro c : Bool) :
    setupResize true ro c =
      ⟨SubscriptionKind.windowResize, true, [100, 500, 1000]⟩ ∧
    setupResize false false c = ⟨SubscriptionKind.windowResize, true, []⟩ :=
  ⟨rfl, rfl⟩

/-- Effects of the extraction-completion callback
`completedAudioProcessing` of VoiceVisualizer.tsx lines 381-387: the
argument passed to `_setIsProcessingOnResize`, the argument passed to
`_setIsProcessingAudioOnComplete`, and whether the audio element's `src`
is assigned from `audioSrc`. -/
structure CompletionEffects where
  setOnResizeArg : Bool
  setOnCompleteArg : Bool
  srcAssigned : Bool
  deriving DecidableEq, Repr

/-- The completion callback of VoiceVisualizer.tsx lines 381-387: both
processing-flag setters are invoked with `false`, and the audio element's
`src` is assigned only when the element exists and the
`isProcessingOnResize` flag is not set. -/
def completedAudioProcessing (isProcessingOnResize audioElPresent : Bool) :
    CompletionEffects :=
  ⟨false, false, audioElPresent && !isProcessingOnResize⟩

/-- C10: whenever the extraction-completion callback fires, both
processing-flag setters receive `false`, and if the audio element's `src`
was assigned then the resize-processing flag was not set — a
resize-triggered recompute completes without reassigning the source. -/
theorem completedAudioProcessing_effects (p a : Bool) :
    (completedAudioProcessing p a).setOnResizeArg = false ∧
    (completedAudioProcessing p a).setOnCompleteArg = false ∧
    ((completedAudioProcessing p a).srcAssigned = true → p = false) := by
  refine ⟨rfl, rfl, ?_⟩
  cases p <;> cases a <;> simp [completedAudioProcessing]

/-- C10 witness: with the flag clear and the audio element present the
source is assigned, and the theorem applies with its antecedent
discharged by evaluation. -/
theorem completedAudioProcessing_effects_witness :
    (completedAudioProcessing false true).srcAssigned = true ∧ false = false :=
  ⟨rfl, (completedAudioProcessing_effects false true).2.2 rfl⟩
